import Mathlib

/-!
Verification of the deck-analysis pipeline of `TestingSum.py`
(PPT summarizer: extractor, gateway retry, context identifier,
deck summarizer, session memoization).

Python strings are modelled as Lean `String` / `List Char`; the Python
`str` methods used by the source (`strip`, `lower`, `split`, `replace`,
`join`, `in`) are embedded below as `py*` functions.  The remote
chat-completion service is modelled as an oracle
`Gateway : Nat → String → String → Option String` giving, for each
successive remote request (indexed by a call counter), either the
generated text (`some`) or a transport/service failure (`none`).
`json.loads` is modelled as an oracle `JsonDecode : String → Option JVal`
(`none` = `json.JSONDecodeError`).  Python exceptions escaping a
function are modelled with `Except`.
-/

/-- Set of slide records as produced by `extract_slide_data`. -/
structure SlideRec where
  slide_number : Nat
  slide_text : String
  notes_text : String
  has_notes : Bool
deriving DecidableEq, Repr

/-- A shape on a (notes) slide: `hasText` models `hasattr(sh, "text")`. -/
structure Shape where
  hasText : Bool
  text : String
deriving DecidableEq, Repr

/-- A slide of the parsed presentation: its shapes and the optional notes page. -/
structure PSlide where
  shapes : List Shape
  notes_slide : Option (List Shape)
deriving DecidableEq, Repr

/-- Drop leading whitespace (first half of Python `str.strip`). -/
def dropLeadingWS (l : List Char) : List Char :=
  l.dropWhile Char.isWhitespace

/-- Drop trailing whitespace (second half of Python `str.strip`). -/
def dropTrailingWS (l : List Char) : List Char :=
  (l.reverse.dropWhile Char.isWhitespace).reverse

/-- Python `str.strip()` on a character list. -/
def pyStrip (l : List Char) : List Char :=
  dropLeadingWS (dropTrailingWS l)

/-- Python `str.strip()` on a `String`. -/
def pyStripS (s : String) : String :=
  String.mk (pyStrip s.data)

/-- Python `str.lower()` (ASCII behaviour, which is all the source relies on). -/
def pyLowerS (s : String) : String :=
  String.mk (s.data.map Char.toLower)

/-- Python `sub in s` on character lists: `sub` occurs contiguously in `s`. -/
def pyIn (sub : List Char) : List Char → Bool
  | [] => sub.isEmpty
  | c :: rest => sub.isPrefixOf (c :: rest) || pyIn sub rest

/-- Python `sub in s` on `String`s. -/
def pyInS (sub s : String) : Bool :=
  pyIn sub.data s.data

/-- Python `sep.join(parts)`. -/
def pyJoin (sep : String) : List String → String
  | [] => ""
  | [x] => x
  | x :: y :: rest => x ++ sep ++ pyJoin sep (y :: rest)

/-- Concatenation with a newline after every element (the shape the
notes loop accumulates). -/
def joinNL : List String → String
  | [] => ""
  | x :: rest => x ++ "\n" ++ joinNL rest

/-- Python `s.split(m)` for a two-character separator `⟨a, b⟩`
(the source only splits on `"2."`); splits at every non-overlapping
occurrence, scanning left to right, keeping empty parts. -/
def pySplit2 (a b : Char) : List Char → List (List Char)
  | [] => [[]]
  | [c] => [[c]]
  | c :: d :: rest =>
    if c = a ∧ d = b then
      [] :: pySplit2 a b rest
    else
      match pySplit2 a b (d :: rest) with
      | [] => [[c]]
      | h :: t => (c :: h) :: t

/-- Python `s.replace(old, new)` for a two-character `old`
(the source only replaces `"1."`): `new.join(s.split(old))`. -/
def pyReplace2 (a b : Char) (new : List Char) (s : List Char) : List Char :=
  List.intercalate new (pySplit2 a b s)

/-- Outcome of a Python exception escaping a pipeline function. -/
inductive PyErr where
  /-- the exception raised by the remote client, re-raised by `chat` -/
  | gatewayErr
  /-- `AttributeError` (e.g. `.get`/`.strip` on a value of the wrong type) -/
  | attributeErr
  /-- `TypeError` (e.g. a method call on `None`); never actually reachable here -/
  | typeErr
deriving DecidableEq, Repr

/-- The remote chat-completion service: for call index `i` and the
(system, user) message pair, either the generated text or a failure. -/
abbrev Gateway := Nat → String → String → Option String

/-- The retry loop of `chat` (lines 58-72): one remote request per
attempt; on success return the stripped content, on failure either
re-raise (last attempt) or sleep and retry.  First `Nat` is the call
counter, second is the remaining number of attempts.  Returns the
Python result (`ok (some text)`, `ok none` = fell off the loop and
returned `None`, `error` = exception re-raised) and the new counter. -/
def chatAttempts (gw : Gateway) (system user : String) :
    Nat → Nat → Except Unit (Option String) × Nat
  | k, 0 => (Except.ok none, k)
  | k, n + 1 =>
    match gw k system user with
    | some s => (Except.ok (some (pyStripS s)), k + 1)
    | none =>
      -- `if attempt + 1 == max_attempts: raise`, else `time.sleep(1.5)` and retry
      if n = 0 then (Except.error (), k + 1) else chatAttempts gw system user (k + 1) n

/-- Embedding of `chat(system, user, temperature=0.3, max_attempts=2)` (lines 56-72).
`temperature` only parameterises the remote call and is omitted; the
≈1.5s backoff sleep is not modelled (no real time).  `max_attempts` is a
Python `int`; `range(max_attempts)` is empty when it is ≤ 0. -/
def chat (gw : Gateway) (system user : String) (max_attempts : Int) (k : Nat) :
    Except Unit (Option String) × Nat :=
  chatAttempts gw system user k max_attempts.toNat

/-- Test whether a shape contributes text: `hasattr(sh, "text") and sh.text.strip()`. -/
def shapeKeep (sh : Shape) : Bool :=
  sh.hasText && (pyStripS sh.text != "")

/-- The notes accumulation loop of `extract_slide_data` (lines 82-84):
`notes += sh.text + "\n"` for every text-bearing shape, in order. -/
def notesAccum : List Shape → String
  | [] => ""
  | sh :: rest => (if shapeKeep sh then sh.text ++ "\n" else "") ++ notesAccum rest

/-- The record built for one slide (body of the loop at lines 78-90). -/
def mkRec (i : Nat) (s : PSlide) : SlideRec :=
  let kept := (s.shapes.filter shapeKeep).map (fun sh => sh.text)
  let notesRaw : String :=
    match s.notes_slide with
    | none => ""          -- `getattr(slide, "notes_slide", None)` falsy
    | some shs => notesAccum shs
  { slide_number := i
    slide_text := pyJoin "\n" kept
    notes_text := pyStripS notesRaw
    has_notes := pyStripS notesRaw != "" }

/-- The `enumerate(prs.slides, 1)` loop: records numbered from `j`. -/
def extractFrom : Nat → List PSlide → List SlideRec
  | _, [] => []
  | j, s :: rest => mkRec j s :: extractFrom (j + 1) rest

/-- Embedding of `extract_slide_data` (lines 75-91): one record per slide, numbered from 1. -/
def extract_slide_data (prs : List PSlide) : List SlideRec :=
  extractFrom 1 prs

/-- A decoded JSON value, as produced by `json.loads`. -/
inductive JVal where
  | jnull
  | jbool (b : Bool)
  | jnum (n : Int)
  | jstr (s : String)
  | jarr (xs : List JVal)
  | jobj (fields : List (String × JVal))

/-- Oracle for `json.loads`: `none` models `json.JSONDecodeError`.
A `jobj` stands for the resulting `dict` (duplicate keys already resolved). -/
abbrev JsonDecode := String → Option JVal

/-- Python `dict.get(key)` on a decoded object. -/
def pyGet (fields : List (String × JVal)) (key : String) : Option JVal :=
  (fields.find? (fun p => p.1 == key)).map (fun p => p.2)

/-- Strippability of `dict.get(key, "Unknown")`: the default and string
values succeed, any non-string value raises `AttributeError` (`none`). -/
def asPyStr : Option JVal → Option String
  | none => some "Unknown"
  | some (JVal.jstr s) => some s
  | some _ => none

/-- Embedding of the `.strip() or "Unknown"` cleaning (lines 141-142). -/
def orUnknown (s : String) : String :=
  if s = "" then "Unknown" else s

/-- The closed purpose vocabulary (line 147). -/
def allowedPurposes : List String :=
  ["inform", "persuade", "propose", "educate", "report", "pitch", "review"]

/-- Force an out-of-vocabulary purpose to `"Unknown"` (lines 148-149). -/
def forcePurpose (s : String) : String :=
  if allowedPurposes.contains s then s else "Unknown"

/-- The deck context dictionary returned by `identify_context`. -/
structure Ctx where
  topic : String
  region : String
  purpose : String
deriving DecidableEq, Repr

/-- The all-`"Unknown"` fallback context (line 155). -/
def unknownCtx : Ctx :=
  { topic := "Unknown", region := "Unknown", purpose := "Unknown" }

/-- The validate-and-clean block (lines 140-151) applied to a decoded
object.  `none` models the uncaught `AttributeError` raised when a
present field value is not a string. -/
def validateObj (fields : List (String × JVal)) : Option Ctx :=
  match asPyStr (pyGet fields "topic"), asPyStr (pyGet fields "region"),
      asPyStr (pyGet fields "purpose") with
  | some t, some r, some p =>
    some { topic := orUnknown (pyStripS t)
           region := orUnknown (pyStripS r)
           purpose := forcePurpose (pyLowerS (pyStripS p)) }
  | _, _, _ => none

/-- The block built for one context slide (lines 104-115). -/
def blockOf (d : SlideRec) : String :=
  let base :=
    if d.slide_number = 1 ∨ pyInS "title" (pyLowerS d.slide_text) = true then
      "🔹 TITLE SLIDE:\n" ++ d.slide_text
    else if pyInS "agenda" (pyLowerS d.slide_text) = true then
      "🔸 AGENDA SLIDE:\n" ++ d.slide_text
    else
      "Slide " ++ toString d.slide_number ++ ":\n" ++ d.slide_text
  if d.has_notes then base ++ "\nNOTES: " ++ d.notes_text else base

/-- The context blocks of `identify_context` (lines 97-115): the
non-empty slides among `slides[:min(7, len(slides))]`, rendered. -/
def context_blocks (slides : List SlideRec) : List String :=
  ((slides.take (min 7 slides.length)).filter
      (fun d => pyStripS d.slide_text != "")).map blockOf

/-- The system prompt of `identify_context` (lines 118-127). -/
def contextSystemPrompt : String :=
  "Extract presentation metadata as JSON with:\n    - topic: Specific subject (e.g., \"2024 Marketing Strategy\")\n    - region: Geographic focus if mentioned\n    - purpose: Only from: inform|persuade|propose|educate|report|pitch|review\n    \n    Rules:\n    1. Be SPECIFIC - avoid generic terms\n    2. For purpose, ONLY use allowed values\n    3. Return ONLY valid JSON like:\n    \x7b\"topic\": \"...\", \"region\": \"...\", \"purpose\": \"...\"\x7d"

/-- The user message of `identify_context` (line 134). -/
def contextUserMsg (slides : List SlideRec) : String :=
  "SLIDE CONTENT:\n\n" ++ pyJoin "\n" (context_blocks slides)

/-- The `for attempt in range(3)` loop of `identify_context`
(lines 130-156), with `fuel` = remaining attempts (`attempt == 2` ⟺
`fuel = 1`).  `chat` is called with the default `max_attempts = 2`.
Only `json.JSONDecodeError` / `ValueError` is caught and retried; a
failure raised out of `chat` (the remote client's exception, not a
`ValueError`) and the `AttributeError` from `.get`/`.strip` on
non-`dict`/non-`str` values both propagate.  The 1s retry pause is not
modelled (no real time). -/
def identLoop (gw : Gateway) (pj : JsonDecode) (system user : String) :
    Nat → Nat → Except PyErr Ctx × Nat
  | _, 0 => (Except.ok unknownCtx, 0)   -- loop exhausted; unreachable from fuel 3
  | k, fuel + 1 =>
    match chat gw system user 2 k with
    | (Except.error _, k') => (Except.error PyErr.gatewayErr, k')
    | (Except.ok none, k') => (Except.error PyErr.typeErr, k')
    | (Except.ok (some raw), k') =>
      match pj raw with
      | none =>
        if fuel = 0 then (Except.ok unknownCtx, k')
        else identLoop gw pj system user k' fuel
      | some (JVal.jobj fields) =>
        match validateObj fields with
        | some ctx => (Except.ok ctx, k')
        | none => (Except.error PyErr.attributeErr, k')
      | some _ => (Except.error PyErr.attributeErr, k')

/-- Embedding of `identify_context(slides)` (lines 95-156). -/
def identify_context (gw : Gateway) (pj : JsonDecode) (slides : List SlideRec)
    (k : Nat) : Except PyErr Ctx × Nat :=
  identLoop gw pj contextSystemPrompt (contextUserMsg slides) k 3

/-- The per-slide two-part split (lines 181-183):
`parts = resp.split("2.")`; key point = `parts[0].replace("1.", "").strip()`
(`parts` is never empty in Python, so the `else resp` branch is dead);
design tip = `parts[1].strip()` when the split produced a second part,
else the placeholder `"—"`. -/
def splitSummary (resp : String) : String × String :=
  let parts := pySplit2 '2' '.' resp.data
  (String.mk (pyStrip (pyReplace2 '1' '.' [] (parts.headD resp.data))),
   match parts with
   | _ :: p1 :: _ => String.mk (pyStrip p1)
   | _ => "—")

/-- Definition following the words of the claim, for comparison with the
code's `splitSummary`: the text before the marker `"2."` (with `"1."`
removed) becomes the key point and the text after it becomes the design
tip; if the marker is absent the entire response is the key point and the
tip is `"—"`. -/
def splitSummarySpec (resp : String) : String × String :=
  match pySplit2 '2' '.' resp.data with
  | [_] => (resp, "—")
  | p0 :: rest =>
    (String.mk (pyStrip (pyReplace2 '1' '.' [] p0)),
     String.mk (pyStrip (List.intercalate ['2', '.'] rest)))
  | [] => (resp, "—")

/-- Definition following the words of the claim, for comparison with the
code's `mkRec`: notes_text is the in-order concatenation of the
non-empty textual shapes of the notes page, separated by newlines, with
trailing whitespace trimmed. -/
def notes_text_claim (s : PSlide) : String :=
  match s.notes_slide with
  | none => ""
  | some shs =>
    String.mk (dropTrailingWS
      (pyJoin "\n" ((shs.filter (fun sh => sh.hasText && sh.text != "")).map
        (fun sh => sh.text))).data)

/-- The texts the source's notes loop keeps, in order. -/
def notesKept (s : PSlide) : List String :=
  match s.notes_slide with
  | none => []
  | some shs => (shs.filter shapeKeep).map (fun sh => sh.text)

/-- One whole-deck segment (lines 163-167). -/
def deckSegment (d : SlideRec) : String :=
  "Slide " ++ toString d.slide_number ++ " content:\n" ++ d.slide_text ++
    (if d.has_notes then "\n\nNotes:\n" ++ d.notes_text else "")

/-- The per-slide prompt (line 176). -/
def slidePrompt (d : SlideRec) : String :=
  "Slide content: " ++ d.slide_text ++
    (if d.has_notes then "\nNotes: " ++ d.notes_text else "")

/-- Embedding of `suggest_layout` (lines 190-195). -/
def suggest_layout (gw : Gateway) (slide_content : String) (k : Nat) :
    Except Unit (Option String) × Nat :=
  chat gw
    "Recommend a slide layout for consulting-style presentations. Be specific about element placement."
    slide_content 2 k

/-- Embedding of `suggest_chart_type` (lines 197-202). -/
def suggest_chart_type (gw : Gateway) (slide_content : String) (k : Nat) :
    Except Unit (Option String) × Nat :=
  chat gw
    "Suggest the best chart type for this content. If no chart fits, recommend an alternative visual."
    slide_content 2 k

/-- One iteration of the per-slide loop of `summarize_deck`
(lines 175-185): key-point/design-tip call, layout call, chart call.
The `ok none` branches (a `None` return from `chat`) are unreachable
for `max_attempts = 2` (`chatAttempts_pos_ne_none`). -/
def perSlideStep (gw : Gateway) (d : SlideRec) (k : Nat) :
    Except PyErr (String × String × String × String) × Nat :=
  let prompt := slidePrompt d
  match chat gw "Provide:\n1. Key point (≤30 words)\n2. Design tip (≤20 words)" prompt 2 k with
  | (Except.error _, k1) => (Except.error PyErr.gatewayErr, k1)
  | (Except.ok none, k1) => (Except.error PyErr.typeErr, k1)
  | (Except.ok (some resp), k1) =>
    let st := splitSummary resp
    match suggest_layout gw prompt k1 with
    | (Except.error _, k2) => (Except.error PyErr.gatewayErr, k2)
    | (Except.ok none, k2) => (Except.error PyErr.typeErr, k2)
    | (Except.ok (some lay), k2) =>
      match suggest_chart_type gw prompt k2 with
      | (Except.error _, k3) => (Except.error PyErr.gatewayErr, k3)
      | (Except.ok none, k3) => (Except.error PyErr.typeErr, k3)
      | (Except.ok (some ch), k3) => (Except.ok (st.1, st.2, lay, ch), k3)

/-- The per-slide loop of `summarize_deck`, accumulating the four
output sequences in slide order. -/
def slideLoop (gw : Gateway) :
    List SlideRec → Nat →
      Except PyErr (List String × List String × List String × List String) × Nat
  | [], k => (Except.ok ([], [], [], []), k)
  | d :: ds, k =>
    match perSlideStep gw d k with
    | (Except.error e, k1) => (Except.error e, k1)
    | (Except.ok (s, t, l, c), k1) =>
      match slideLoop gw ds k1 with
      | (Except.error e, k2) => (Except.error e, k2)
      | (Except.ok (ss, ts, ls, cs), k2) =>
        (Except.ok (s :: ss, t :: ts, l :: ls, c :: cs), k2)

/-- The value returned by `summarize_deck`. -/
structure SummaryResult where
  deck_summary : String
  context : Ctx
  slide_sums : List String
  design_notes : List String
  layouts : List String
  charts : List String
deriving DecidableEq, Repr

/-- Embedding of `summarize_deck(slides)` (lines 159-187): context first, then the
whole-deck summary, then the per-slide loop.  Any exception escaping a
`chat` call (or the `AttributeError` from `identify_context`)
propagates; nothing partial is returned. -/
def summarize_deck (gw : Gateway) (pj : JsonDecode) (slides : List SlideRec)
    (k : Nat) : Except PyErr SummaryResult × Nat :=
  match identify_context gw pj slides k with
  | (Except.error e, k1) => (Except.error e, k1)
  | (Except.ok ctx, k1) =>
    match chat gw "Summarize this presentation in <100 words for a busy executive."
        (pyJoin "\n\n" (slides.map deckSegment)) 2 k1 with
    | (Except.error _, k2) => (Except.error PyErr.gatewayErr, k2)
    | (Except.ok none, k2) => (Except.error PyErr.typeErr, k2)
    | (Except.ok (some ds), k2) =>
      match slideLoop gw slides k2 with
      | (Except.error e, k3) => (Except.error e, k3)
      | (Except.ok (ss, ts, ls, cs), k3) =>
        (Except.ok { deck_summary := ds, context := ctx, slide_sums := ss
                     design_notes := ts, layouts := ls, charts := cs }, k3)

/-- The memoized analysis trigger of `main` (lines 313-318): if the
session already holds `summaries`, reuse them without touching the
Gateway; otherwise run `summarize_deck` and store the result.  Returns
the displayed result, the new session slot and the new call counter;
an exception leaves the slot unset. -/
def analyzeStep (gw : Gateway) (pj : JsonDecode) (slides : List SlideRec)
    (st : Option SummaryResult) (k : Nat) :
    Except PyErr (SummaryResult × Option SummaryResult × Nat) :=
  match st with
  | some r => Except.ok (r, some r, k)
  | none =>
    match summarize_deck gw pj slides k with
    | (Except.ok r, k1) => Except.ok (r, some r, k1)
    | (Except.error e, _) => Except.error e

/- ── Concrete fixtures used to instantiate the theorems below ───────── -/

/-- A gateway that fails on its first two calls and succeeds afterwards. -/
def gwFailTwice : Gateway := fun i _ _ => if i < 2 then none else some "ok"

/-- A gateway that always succeeds with `"hi"`. -/
def gwAlwaysHi : Gateway := fun _ _ _ => some "hi"

/-- A gateway that always answers `"J"`. -/
def gwJ : Gateway := fun _ _ _ => some "J"

/-- A decoder sending `"J"` to an object with an out-of-vocabulary purpose. -/
def pjBanana : JsonDecode :=
  fun s => if s = "J" then some (JVal.jobj [("purpose", JVal.jstr "banana")]) else none

/-- A decoder that always yields a JSON string (valid JSON, not an object). -/
def pjStr : JsonDecode := fun _ => some (JVal.jstr "hello")

/-- A decoder that always yields a JSON array (valid JSON, not an object). -/
def pjArr : JsonDecode := fun _ => some (JVal.jarr [])

/-- A decoder that always fails (`json.JSONDecodeError`). -/
def pjFail : JsonDecode := fun _ => none

/-- A gateway answering `"A"` on the first call and `"B"` afterwards. -/
def gwAB : Gateway := fun i _ _ => if i = 0 then some "A" else some "B"

/-- A decoder giving an invalid purpose for `"A"` and a valid one for `"B"`. -/
def pjAB : JsonDecode := fun s =>
  if s = "A" then some (JVal.jobj [("purpose", JVal.jstr "banana")])
  else if s = "B" then some (JVal.jobj [("purpose", JVal.jstr "inform")])
  else none

/-- A gateway that always answers `"R"`. -/
def gwR : Gateway := fun _ _ _ => some "R"

/-- A decoder sending `"R"` to a well-formed metadata object. -/
def pjR : JsonDecode := fun s =>
  if s = "R" then
    some (JVal.jobj [("topic", JVal.jstr "T"), ("purpose", JVal.jstr "inform")])
  else none

/-- A one-slide record list. -/
def slidesOne : List SlideRec :=
  [{ slide_number := 1, slide_text := "Hello", notes_text := "", has_notes := false }]

/-- The analysis result produced from `slidesOne` by `gwR`/`pjR`. -/
def resR : SummaryResult :=
  { deck_summary := "R", context := { topic := "T", region := "Unknown", purpose := "inform" }
    slide_sums := ["R"], design_notes := ["—"], layouts := ["R"], charts := ["R"] }

/-- A one-slide deck whose only shape has empty text. -/
def deckEmptyText : List PSlide :=
  [{ shapes := [{ hasText := true, text := "" }], notes_slide := none }]

/-- A slide whose notes page holds one shape with leading whitespace. -/
def slideNotesLead : PSlide :=
  { shapes := [], notes_slide := some [{ hasText := true, text := " a" }] }

/-- A slide whose notes page holds a whitespace-only shape between two others. -/
def slideNotesMid : PSlide :=
  { shapes := []
    notes_slide := some [{ hasText := true, text := "a" },
                         { hasText := true, text := " " },
                         { hasText := true, text := "b" }] }

/-- A slide with no notes page. -/
def slideNoNotes : PSlide := { shapes := [], notes_slide := none }

/-- The 3-slide example deck of the spec: title, agenda, notes-only. -/
def exampleDeck : List SlideRec :=
  [{ slide_number := 1, slide_text := "Title: Q3 Review", notes_text := "", has_notes := false },
   { slide_number := 2, slide_text := "Agenda: Intro, Results, Next Steps", notes_text := "",
     has_notes := false },
   { slide_number := 3, slide_text := "", notes_text := "Speaker notes", has_notes := true }]

/-- A slide whose text contains both `"title"` and `"agenda"`. -/
def slideTitleAgenda : SlideRec :=
  { slide_number := 2, slide_text := "Title and Agenda", notes_text := "", has_notes := false }

/- ── Theorems ──────────────────────────────────────────────────────── -/

theorem chatAttempts_counter_le (gw : Gateway) (system user : String) :
    ∀ n k, (chatAttempts gw system user k n).2 ≤ k + n := by
  intro n
  induction n with
  | zero => intro k; simp [chatAttempts]
  | succ n ih =>
    intro k
    simp only [chatAttempts]
    cases gw k system user with
    | some s => simp
    | none =>
      by_cases h : n = 0
      · subst h; simp
      · simp only [if_neg h]
        have := ih (k + 1)
        omega

theorem chatAttempts_all_fail (gw : Gateway) (system user : String) :
    ∀ n k, 0 < n → (∀ j, j < n → gw (k + j) system user = none) →
      (chatAttempts gw system user k n).1 = Except.error () := by
  intro n
  induction n with
  | zero => intro k h; omega
  | succ n ih =>
    intro k _ hall
    have h0 : gw k system user = none := by simpa using hall 0 (by omega)
    simp only [chatAttempts, h0]
    by_cases h : n = 0
    · subst h; simp
    · simp only [if_neg h]
      exact ih (k + 1) (by omega) (fun j hj => by
        have := hall (j + 1) (by omega)
        simpa [Nat.add_assoc, Nat.add_comm 1 j] using this)

/-- C4: for every call to `chat`, at most `max_attempts` remote requests
are issued (the call counter advances by at most `max_attempts`), and if
the gateway fails on every allowed attempt the underlying exception
propagates to the caller — in particular a gateway that would succeed
only on a later call never turns the call into a success.  (The fixed
≈1.5s sleep between attempts is a real-time effect outside the model.) -/
theorem chat_retry_bound (gw : Gateway) (system user : String)
    (max_attempts : Int) (k : Nat) :
    (chat gw system user max_attempts k).2 ≤ k + max_attempts.toNat ∧
    (0 < max_attempts.toNat →
      (∀ j, j < max_attempts.toNat → gw (k + j) system user = none) →
      (chat gw system user max_attempts k).1 = Except.error ()) :=
  ⟨chatAttempts_counter_le gw system user max_attempts.toNat k,
   fun h hall => chatAttempts_all_fail gw system user max_attempts.toNat k h hall⟩

/-- C4 witness: with `max_attempts = 2` and a gateway that fails on its
first two calls (and would succeed on the third), `chat` raises after
issuing at most two requests. -/
theorem chat_retry_bound_witness :
    (chat gwFailTwice "s" "u" 2 0).1 = Except.error () ∧
    (chat gwFailTwice "s" "u" 2 0).2 ≤ 0 + (2 : Int).toNat :=
  ⟨(chat_retry_bound gwFailTwice "s" "u" 2 0).2 (by decide)
      (fun j hj => by
        have hj2 : j < 2 := by simpa using hj
        simp [gwFailTwice, hj2]),
   (chat_retry_bound gwFailTwice "s" "u" 2 0).1⟩

/-- C10: calling `chat` with `max_attempts ≤ 0` makes `range(max_attempts)`
empty, so no remote request is issued (the call counter is unchanged) and
the function falls off the loop returning `None` — it neither returns
generated text nor raises. -/
theorem chat_nonpositive_attempts (gw : Gateway) (system user : String)
    (max_attempts : Int) (k : Nat) (h : max_attempts ≤ 0) :
    chat gw system user max_attempts k = (Except.ok none, k) := by
  unfold chat
  rw [Int.toNat_of_nonpos h]
  rfl

/-- C10 witness: `chat` with `max_attempts = -1` on an always-succeeding
gateway issues no request and returns `None`. -/
theorem chat_nonpositive_attempts_witness :
    chat gwAlwaysHi "s" "u" (-1) 0 = (Except.ok none, 0) :=
  chat_nonpositive_attempts gwAlwaysHi "s" "u" (-1) 0 (by decide)

theorem extractFrom_length (prs : List PSlide) :
    ∀ j, (extractFrom j prs).length = prs.length := by
  induction prs with
  | nil => intro j; rfl
  | cons s rest ih => intro j; simp [extractFrom, ih]

theorem extractFrom_get (prs : List PSlide) :
    ∀ (j i : Nat) (h1 : i < prs.length) (h2 : i < (extractFrom j prs).length),
      (extractFrom j prs).get ⟨i, h2⟩ = mkRec (j + i) (prs.get ⟨i, h1⟩) := by
  induction prs with
  | nil => intro j i h1 h2; simp at h1
  | cons s rest ih =>
    intro j i h1 h2
    cases i with
    | zero => rfl
    | succ n =>
      have h1' : n < rest.length := by simpa using h1
      have h2' : n < (extractFrom (j + 1) rest).length := by
        simpa [extractFrom] using h2
      simpa [extractFrom, List.get_cons_succ, Nat.add_assoc, Nat.add_comm 1 n]
        using ih (j + 1) n h1' h2'

/-- C3: for every deck with N slides, `extract_slide_data` returns
exactly N records, the i-th record carries `slide_number = i + 1` (so
the numbers are 1..N in order), and a slide with zero non-empty text
shapes is still included, with `slide_text = ""`. -/
theorem extract_slide_data_shape (prs : List PSlide) :
    (extract_slide_data prs).length = prs.length ∧
    (∀ (i : Nat) (h : i < (extract_slide_data prs).length),
      ((extract_slide_data prs).get ⟨i, h⟩).slide_number = i + 1) ∧
    (∀ (i : Nat) (h1 : i < prs.length) (h2 : i < (extract_slide_data prs).length),
      (∀ sh ∈ (prs.get ⟨i, h1⟩).shapes, sh.hasText = false ∨ sh.text = "") →
      ((extract_slide_data prs).get ⟨i, h2⟩).slide_text = "") := by
  refine ⟨extractFrom_length prs 1, ?_, ?_⟩
  · intro i h
    have h1 : i < prs.length := by rwa [extract_slide_data, extractFrom_length] at h
    unfold extract_slide_data
    rw [extractFrom_get prs 1 i h1 h, mkRec]
    simp [Nat.add_comm 1 i]
  · intro i h1 h2 hsh
    unfold extract_slide_data
    rw [extractFrom_get prs 1 i h1 h2, mkRec]
    have hfil : (prs.get ⟨i, h1⟩).shapes.filter shapeKeep = [] := by
      rw [List.filter_eq_nil_iff]
      intro sh hmem
      rcases hsh sh hmem with h | h <;> simp [shapeKeep, h, pyStripS, pyStrip,
        dropLeadingWS, dropTrailingWS]
    simp only [List.get_eq_getElem] at hfil
    simp [hfil, pyJoin]

/-- C3 witness: a one-slide deck whose only shape has empty text still
yields one record, numbered 1, with `slide_text = ""`. -/
theorem extract_slide_data_shape_witness :
    (extract_slide_data deckEmptyText).length = deckEmptyText.length ∧
    ((extract_slide_data deckEmptyText).get ⟨0, by decide⟩).slide_number = 0 + 1 ∧
    ((extract_slide_data deckEmptyText).get ⟨0, by decide⟩).slide_text = "" :=
  ⟨(extract_slide_data_shape deckEmptyText).1,
   (extract_slide_data_shape deckEmptyText).2.1 0 (by decide),
   (extract_slide_data_shape deckEmptyText).2.2 0 (by decide) (by decide) (by decide)⟩

theorem notesAccum_eq_joinNL (shs : List Shape) :
    notesAccum shs = joinNL ((shs.filter shapeKeep).map (fun sh => sh.text)) := by
  induction shs with
  | nil => rfl
  | cons sh rest ih =>
    cases hk : shapeKeep sh <;>
      simp [notesAccum, joinNL, List.filter_cons, hk, ih, String.append_assoc]

theorem joinNL_eq_pyJoin (x : String) (l : List String) :
    joinNL (x :: l) = pyJoin "\n" (x :: l) ++ "\n" := by
  induction l generalizing x with
  | nil => simp [joinNL, pyJoin]
  | cons y rest ih =>
    rw [show joinNL (x :: y :: rest) = x ++ "\n" ++ joinNL (y :: rest) from rfl, ih y]
    simp [pyJoin, String.append_assoc]

theorem pyStripS_append_newline (x : String) : pyStripS (x ++ "\n") = pyStripS x := by
  unfold pyStripS pyStrip dropTrailingWS
  have : (x ++ "\n").data.reverse.dropWhile Char.isWhitespace
      = x.data.reverse.dropWhile Char.isWhitespace := by
    simp [String.data_append, List.dropWhile]
  rw [this]

theorem pyStripS_joinNL (l : List String) :
    pyStripS (joinNL l) = pyStripS (pyJoin "\n" l) := by
  cases l with
  | nil => rfl
  | cons x rest => rw [joinNL_eq_pyJoin, pyStripS_append_newline]

/-- C8 amended: `notes_text` is the in-order newline-separated
concatenation of the textual shapes of the notes page whose text is
non-whitespace, trimmed of leading and trailing whitespace; a slide
with no notes page yields `notes_text = ""`; and `has_notes` is true
iff `notes_text` is non-empty. -/
theorem mkRec_notes (i : Nat) (s : PSlide) :
    (mkRec i s).notes_text = pyStripS (pyJoin "\n" (notesKept s)) ∧
    ((mkRec i s).has_notes = true ↔ (mkRec i s).notes_text ≠ "") ∧
    (s.notes_slide = none → (mkRec i s).notes_text = "" ∧ (mkRec i s).has_notes = false) := by
  refine ⟨?_, ?_, ?_⟩
  · cases hn : s.notes_slide with
    | none => simp [mkRec, hn, notesKept, pyJoin]
    | some shs =>
      simp only [mkRec, hn, notesKept]
      rw [notesAccum_eq_joinNL, pyStripS_joinNL]
  · simp [mkRec, bne_iff_ne]
  · intro hn; simp [mkRec, hn, pyStripS, pyStrip, dropLeadingWS, dropTrailingWS]

/-- C8 witness: a slide with no notes page has `notes_text = ""` and
`has_notes = false`, and satisfies the concatenation characterisation. -/
theorem mkRec_notes_witness :
    (mkRec 1 slideNoNotes).notes_text = pyStripS (pyJoin "\n" (notesKept slideNoNotes)) ∧
    (mkRec 1 slideNoNotes).notes_text = "" ∧ (mkRec 1 slideNoNotes).has_notes = false :=
  ⟨(mkRec_notes 1 slideNoNotes).1,
   ((mkRec_notes 1 slideNoNotes).2.2 rfl).1,
   ((mkRec_notes 1 slideNoNotes).2.2 rfl).2⟩

/-- C8 counterexample: the claim's notes derivation (concatenate the
non-empty textual shapes, trim only trailing whitespace,
`notes_text_claim`) disagrees with the code.  The code's `.strip()`
also removes leading whitespace (first slide), and the code drops
whitespace-only shapes while the claim's "non-empty" keeps them
(second slide). -/
theorem notes_text_counterexample :
    (extract_slide_data [slideNotesLead]).map (fun d => d.notes_text) = ["a"] ∧
    notes_text_claim slideNotesLead = " a" ∧
    (extract_slide_data [slideNotesMid]).map (fun d => d.notes_text) = ["a\nb"] ∧
    notes_text_claim slideNotesMid = "a\n \nb" ∧
    ("a" : String) ≠ " a" ∧ ("a\nb" : String) ≠ "a\n \nb" :=
  ⟨rfl, rfl, rfl, rfl, by decide, by decide⟩

theorem pySplit2_cons2 (a b c d : Char) (rest : List Char) :
    pySplit2 a b (c :: d :: rest) =
      if c = a ∧ d = b then [] :: pySplit2 a b rest
      else
        match pySplit2 a b (d :: rest) with
        | [] => [[c]]
        | h :: t => (c :: h) :: t := rfl

theorem pyIn_cons_false {sub : List Char} {c : Char} {l : List Char}
    (h : pyIn sub (c :: l) = false) :
    sub.isPrefixOf (c :: l) = false ∧ pyIn sub l = false := by
  have : (sub.isPrefixOf (c :: l) || pyIn sub l) = false := h
  exact Bool.or_eq_false_iff.mp this

theorem pySplit2_no_occ (a b : Char) :
    ∀ l : List Char, pyIn [a, b] l = false → pySplit2 a b l = [l] := by
  intro l
  induction l with
  | nil => intro _; rfl
  | cons c rest ih =>
    intro h
    cases rest with
    | nil => rfl
    | cons d rest' =>
      obtain ⟨hpre, hrest⟩ := pyIn_cons_false h
      have hcd : ¬(c = a ∧ d = b) := by
        rintro ⟨h1, h2⟩
        subst h1; subst h2
        simp [List.isPrefixOf] at hpre
      rw [pySplit2_cons2, if_neg hcd, ih hrest]

theorem pySplit2_append (a b : Char) (hab : a ≠ b) :
    ∀ (x r : List Char), pyIn [a, b] x = false →
      pySplit2 a b (x ++ a :: b :: r) = x :: pySplit2 a b r := by
  intro x
  induction x with
  | nil =>
    intro r _
    rw [List.nil_append, pySplit2_cons2, if_pos ⟨rfl, rfl⟩]
  | cons c x' ih =>
    intro r h
    obtain ⟨hpre, hx'⟩ := pyIn_cons_false h
    cases x' with
    | nil =>
      rw [List.cons_append, List.nil_append, pySplit2_cons2]
      rw [if_neg (by rintro ⟨_, h2⟩; exact hab h2)]
      rw [pySplit2_cons2, if_pos ⟨rfl, rfl⟩]
    | cons d x'' =>
      rw [List.cons_append, List.cons_append, pySplit2_cons2]
      have hcd : ¬(c = a ∧ d = b) := by
        rintro ⟨h1, h2⟩
        subst h1; subst h2
        simp [List.isPrefixOf] at hpre
      rw [if_neg hcd, ← List.cons_append, ih r hx']

/-- C5 amended: the per-slide split of `summarize_deck` (`splitSummary`,
lines 181-183) splits the response on every occurrence of `"2."`: the
key point is the text before the first occurrence with every `"1."`
removed and whitespace-stripped — the same removal and strip also apply
when the marker is absent, in which case the whole processed response is
the key point and the design tip is the placeholder `"—"` — and the
design tip is the whitespace-stripped text between the first and second
occurrences of the marker, not the whole text after the first one. -/
theorem splitSummary_marker :
    (∀ x y z : String, pyInS "2." x = false → pyInS "2." y = false →
      splitSummary (x ++ "2." ++ y ++ "2." ++ z) =
        (String.mk (pyStrip (pyReplace2 '1' '.' [] x.data)),
         String.mk (pyStrip y.data))) ∧
    (∀ r : String, pyInS "2." r = false →
      splitSummary r = (String.mk (pyStrip (pyReplace2 '1' '.' [] r.data)), "—")) := by
  constructor
  · intro x y z hx hy
    have hx' : pyIn ['2', '.'] x.data = false := hx
    have hy' : pyIn ['2', '.'] y.data = false := hy
    have hdata : (x ++ "2." ++ y ++ "2." ++ z).data
        = x.data ++ '2' :: '.' :: (y.data ++ '2' :: '.' :: z.data) := by
      simp [String.data_append]
    unfold splitSummary
    rw [hdata, pySplit2_append '2' '.' (by decide) _ _ hx',
        pySplit2_append '2' '.' (by decide) _ _ hy']
    rfl
  · intro r hr
    have hr' : pyIn ['2', '.'] r.data = false := hr
    unfold splitSummary
    rw [pySplit2_no_occ '2' '.' r.data hr']
    rfl

/-- C5 witness: a response with two markers and one without, processed
as the amended claim states. -/
theorem splitSummary_marker_witness :
    splitSummary ("1. K " ++ "2." ++ " tip " ++ "2." ++ "x") =
      (String.mk (pyStrip (pyReplace2 '1' '.' [] ("1. K " : String).data)),
       String.mk (pyStrip (" tip " : String).data)) ∧
    splitSummary "hi" =
      (String.mk (pyStrip (pyReplace2 '1' '.' [] ("hi" : String).data)), "—") :=
  ⟨splitSummary_marker.1 "1. K " " tip " "x" (by decide) (by decide),
   splitSummary_marker.2 "hi" (by decide)⟩

/-- C5 counterexample: on `"1. A 2. B 2. C"` the code's design tip is
`"B"` (the text between the first and second markers), not the claim's
"text after the marker" `"B 2. C"` (`splitSummarySpec` renders the
claim's words); and with the marker absent the code still removes
`"1."` and strips, so the key point of `"1. Hello"` is `"Hello"`, not
the claim's "entire response" `"1. Hello"`. -/
theorem splitSummary_counterexample :
    splitSummary "1. A 2. B 2. C" = ("A", "B") ∧
    splitSummarySpec "1. A 2. B 2. C" = ("A", "B 2. C") ∧
    splitSummary "1. Hello" = ("Hello", "—") ∧
    splitSummarySpec "1. Hello" = ("1. Hello", "—") ∧
    ("B" : String) ≠ "B 2. C" ∧ ("Hello" : String) ≠ "1. Hello" :=
  ⟨rfl, rfl, rfl, rfl, by decide, by decide⟩

theorem take_filter_comm {α : Type} (p : α → Bool) :
    ∀ (l : List α) (n : Nat), ∃ m, m ≤ n ∧ (l.take n).filter p = (l.filter p).take m := by
  intro l
  induction l with
  | nil => intro n; exact ⟨0, Nat.zero_le n, by simp⟩
  | cons x xs ih =>
    intro n
    cases n with
    | zero => exact ⟨0, Nat.le_refl 0, by simp⟩
    | succ n =>
      obtain ⟨m, hm, heq⟩ := ih n
      cases hp : p x with
      | true =>
        exact ⟨m + 1, by omega, by simp [List.take_succ_cons, List.filter_cons, hp, heq]⟩
      | false =>
        exact ⟨m, by omega, by simp [List.take_succ_cons, List.filter_cons, hp, heq]⟩

/-- C6 amended: the `identify_context` prompt is built from at most the
first 7 non-empty slides (the non-empty slides among the first 7
positions, a prefix of length ≤ 7 of the non-empty slides); a slide is
tagged as a TITLE block iff it is slide 1 or its text contains
`"title"`, and as an AGENDA block iff it is not so tagged and its text
contains `"agenda"` (title tagging takes precedence); in particular,
on the 3-slide example deck slide 1 is tagged TITLE and slide 2 is
tagged AGENDA. -/
theorem context_blocks_spec (slides : List SlideRec) :
    (∃ m, m ≤ 7 ∧ context_blocks slides =
        ((slides.filter (fun d => pyStripS d.slide_text != "")).take m).map blockOf) ∧
    (∀ d : SlideRec, d.slide_number = 1 ∨ pyInS "title" (pyLowerS d.slide_text) = true →
      blockOf d = (if d.has_notes
        then "🔹 TITLE SLIDE:\n" ++ d.slide_text ++ "\nNOTES: " ++ d.notes_text
        else "🔹 TITLE SLIDE:\n" ++ d.slide_text)) ∧
    (∀ d : SlideRec, ¬(d.slide_number = 1 ∨ pyInS "title" (pyLowerS d.slide_text) = true) →
      pyInS "agenda" (pyLowerS d.slide_text) = true →
      blockOf d = (if d.has_notes
        then "🔸 AGENDA SLIDE:\n" ++ d.slide_text ++ "\nNOTES: " ++ d.notes_text
        else "🔸 AGENDA SLIDE:\n" ++ d.slide_text)) ∧
    context_blocks exampleDeck =
      ["🔹 TITLE SLIDE:\nTitle: Q3 Review",
       "🔸 AGENDA SLIDE:\nAgenda: Intro, Results, Next Steps"] := by
  refine ⟨?_, ?_, ?_, rfl⟩
  · obtain ⟨m, hm, heq⟩ :=
      take_filter_comm (fun d => pyStripS d.slide_text != "") slides
        (min 7 slides.length)
    exact ⟨m, Nat.le_trans hm (Nat.min_le_left 7 slides.length),
      by rw [context_blocks, heq]⟩
  · intro d h
    rw [blockOf]
    simp only [if_pos h]
  · intro d h h2
    rw [blockOf]
    simp only [if_neg h, if_pos h2]

/-- C6 witness: on the 3-slide example deck, the slide-1 record is
rendered as a TITLE block and the agenda slide as an AGENDA block. -/
theorem context_blocks_spec_witness :
    blockOf ⟨1, "Title: Q3 Review", "", false⟩ = "🔹 TITLE SLIDE:\nTitle: Q3 Review" ∧
    blockOf ⟨2, "Agenda: Intro, Results, Next Steps", "", false⟩ =
      "🔸 AGENDA SLIDE:\nAgenda: Intro, Results, Next Steps" := by
  constructor
  · have h := (context_blocks_spec exampleDeck).2.1
      ⟨1, "Title: Q3 Review", "", false⟩ (Or.inl rfl)
    simpa using h
  · have h := (context_blocks_spec exampleDeck).2.2.1
      ⟨2, "Agenda: Intro, Results, Next Steps", "", false⟩ (by decide) (by decide)
    simpa using h

/-- C6 counterexample: an included slide whose text contains `"agenda"`
but also `"title"` is rendered as a TITLE block, not as the AGENDA
block the claim promises for every agenda-containing slide. -/
theorem context_blocks_counterexample :
    pyInS "agenda" (pyLowerS slideTitleAgenda.slide_text) = true ∧
    context_blocks [⟨1, "Hello", "", false⟩, slideTitleAgenda] =
      ["🔹 TITLE SLIDE:\nHello", "🔹 TITLE SLIDE:\nTitle and Agenda"] ∧
    blockOf slideTitleAgenda ≠ "🔸 AGENDA SLIDE:\nTitle and Agenda" :=
  ⟨by decide, rfl, by decide⟩

theorem chatAttempts_succ (gw : Gateway) (system user : String) (k n : Nat) :
    chatAttempts gw system user k (n + 1) =
      match gw k system user with
      | some s => (Except.ok (some (pyStripS s)), k + 1)
      | none =>
        if n = 0 then (Except.error (), k + 1) else chatAttempts gw system user (k + 1) n := rfl

theorem identLoop_succ (gw : Gateway) (pj : JsonDecode) (system user : String)
    (k fuel : Nat) :
    identLoop gw pj system user k (fuel + 1) =
      match chat gw system user 2 k with
      | (Except.error _, k') => (Except.error PyErr.gatewayErr, k')
      | (Except.ok none, k') => (Except.error PyErr.typeErr, k')
      | (Except.ok (some raw), k') =>
        match pj raw with
        | none =>
          if fuel = 0 then (Except.ok unknownCtx, k')
          else identLoop gw pj system user k' fuel
        | some (JVal.jobj fields) =>
          match validateObj fields with
          | some ctx => (Except.ok ctx, k')
          | none => (Except.error PyErr.attributeErr, k')
        | some _ => (Except.error PyErr.attributeErr, k') := rfl

theorem validateObj_purpose {fields : List (String × JVal)} {ctx : Ctx}
    (h : validateObj fields = some ctx) :
    ctx.purpose = "Unknown" ∨ allowedPurposes.contains ctx.purpose = true := by
  unfold validateObj at h
  cases h1 : asPyStr (pyGet fields "topic") <;> rw [h1] at h
  · simp at h
  cases h2 : asPyStr (pyGet fields "region") <;> rw [h2] at h
  · simp at h
  cases h3 : asPyStr (pyGet fields "purpose") <;> rw [h3] at h
  · simp at h
  obtain rfl := Option.some_inj.mp h
  show forcePurpose _ = "Unknown" ∨ allowedPurposes.contains (forcePurpose _) = true
  unfold forcePurpose
  split
  · rename_i hc
    right
    simpa using hc
  · left; rfl

theorem identLoop_ok_purpose (gw : Gateway) (pj : JsonDecode) (system user : String) :
    ∀ (fuel k k' : Nat) (ctx : Ctx),
      identLoop gw pj system user k fuel = (Except.ok ctx, k') →
      ctx.purpose = "Unknown" ∨ allowedPurposes.contains ctx.purpose = true := by
  intro fuel
  induction fuel with
  | zero =>
    intro k k' ctx h
    rw [show identLoop gw pj system user k 0 = (Except.ok unknownCtx, 0) from rfl] at h
    simp only [Prod.mk.injEq, Except.ok.injEq] at h
    rw [← h.1]
    left; rfl
  | succ fuel ih =>
    intro k k' ctx h
    rw [identLoop_succ] at h
    rcases hc : chat gw system user 2 k with ⟨r, kc⟩
    rw [hc] at h
    cases r with
    | error e => simp at h
    | ok o =>
      cases o with
      | none => simp at h
      | some raw =>
        simp only [] at h
        cases hp : pj raw with
        | none =>
          rw [hp] at h
          by_cases hf : fuel = 0
          · rw [if_pos hf] at h
            simp only [Prod.mk.injEq, Except.ok.injEq] at h
            rw [← h.1]
            left; rfl
          · rw [if_neg hf] at h
            exact ih kc k' ctx h
        | some v =>
          rw [hp] at h
          cases v with
          | jobj fields =>
            cases hv : validateObj fields with
            | none => simp [hv] at h
            | some c =>
              simp only [hv] at h
              simp only [Prod.mk.injEq, Except.ok.injEq] at h
              rw [← h.1]
              exact validateObj_purpose hv
          | jnull => simp at h
          | jbool b => simp at h
          | jnum n => simp at h
          | jstr s => simp at h
          | jarr xs => simp at h

/-- C1 amended: whenever `identify_context` returns a context — in
particular when the raw response is non-JSON or carries an
out-of-vocabulary purpose — the purpose field is `"Unknown"` or a member
of the fixed 7-value set; but a response that is valid JSON without
being an object (or an object with a non-string field) raises an
uncaught `AttributeError` instead of returning a context (see the
counterexample). -/
theorem identify_context_purpose (gw : Gateway) (pj : JsonDecode)
    (slides : List SlideRec) (k k' : Nat) (ctx : Ctx)
    (h : identify_context gw pj slides k = (Except.ok ctx, k')) :
    ctx.purpose = "Unknown" ∨ allowedPurposes.contains ctx.purpose = true :=
  identLoop_ok_purpose gw pj contextSystemPrompt (contextUserMsg slides) 3 k k' ctx h

/-- C1 witness: a response carrying the out-of-vocabulary purpose
`"banana"` yields the all-`"Unknown"` context, whose purpose is in the
allowed range. -/
theorem identify_context_purpose_witness :
    identify_context gwJ pjBanana [] 0 = (Except.ok unknownCtx, 1) ∧
    (unknownCtx.purpose = "Unknown" ∨
      allowedPurposes.contains unknownCtx.purpose = true) :=
  ⟨rfl, identify_context_purpose gwJ pjBanana [] 0 1 unknownCtx rfl⟩

/-- C1 counterexample: when the model's response is the valid JSON
string `"hello"` (well-formed JSON, but not an object), the claim says a
context with an in-range purpose is still returned; the code instead
raises an uncaught `AttributeError` (`dict.get` on a `str`), so no
context is returned at all. -/
theorem identify_context_nonobject_raises :
    identify_context gwJ pjStr [] 0 = (Except.error PyErr.attributeErr, 1) := rfl

theorem identLoop_all_parse_fail (f : Nat → String) (pj : JsonDecode)
    (system user : String) (h : ∀ s, pj s = none) :
    ∀ fuel k, 0 < fuel →
      identLoop (fun i _ _ => some (f i)) pj system user k fuel
        = (Except.ok unknownCtx, k + fuel) := by
  intro fuel
  induction fuel with
  | zero => intro k h0; omega
  | succ fuel ih =>
    intro k _
    rw [identLoop_succ,
      show chat (fun i _ _ => some (f i)) system user 2 k
        = (Except.ok (some (pyStripS (f k))), k + 1) from rfl]
    simp only [h (pyStripS (f k))]
    by_cases hf : fuel = 0
    · subst hf; simp
    · rw [if_neg hf, ih (k + 1) (by omega)]
      have : k + 1 + fuel = k + (fuel + 1) := by omega
      rw [this]

/-- C7 amended: on JSON parse failure `identify_context` retries the
full identify step with a short pause, issuing one `chat` call per
attempt; if all 3 attempts fail to parse it returns the all-`"Unknown"`
context rather than raising.  A response that parses to an object is
validated and returned immediately: missing or out-of-vocabulary fields
are replaced by `"Unknown"` on the spot, with no retry.  A response
parsing to a non-object JSON value, however, raises an uncaught
`AttributeError` to the caller (see the counterexample). -/
theorem identify_context_retry (f : Nat → String) (pj : JsonDecode)
    (slides : List SlideRec) (k : Nat) :
    ((∀ s, pj s = none) →
      identify_context (fun i _ _ => some (f i)) pj slides k
        = (Except.ok unknownCtx, k + 3)) ∧
    (∀ (gw : Gateway) (raw : String) (fields : List (String × JVal)) (ctx : Ctx),
      gw k contextSystemPrompt (contextUserMsg slides) = some raw →
      pj (pyStripS raw) = some (JVal.jobj fields) →
      validateObj fields = some ctx →
      identify_context gw pj slides k = (Except.ok ctx, k + 1)) := by
  constructor
  · intro h
    exact identLoop_all_parse_fail f pj contextSystemPrompt (contextUserMsg slides) h 3 k
      (by omega)
  · intro gw raw fields ctx h1 h2 h3
    have hc : chat gw contextSystemPrompt (contextUserMsg slides) 2 k
        = (Except.ok (some (pyStripS raw)), k + 1) := by
      show chatAttempts gw contextSystemPrompt (contextUserMsg slides) k 2 = _
      rw [chatAttempts_succ, h1]
    unfold identify_context
    rw [identLoop_succ, hc]
    simp only [h2, h3]

/-- C7 witness: three unparseable responses degrade to the all-`"Unknown"`
context after exactly three calls, and a response validating to a
well-formed context is returned after a single call. -/
theorem identify_context_retry_witness :
    identify_context (fun i _ _ => some ((fun _ => "x") i)) pjFail [] 0
      = (Except.ok unknownCtx, 0 + 3) ∧
    identify_context gwR pjR slidesOne 5
      = (Except.ok ⟨"T", "Unknown", "inform"⟩, 5 + 1) :=
  ⟨(identify_context_retry (fun _ => "x") pjFail [] 0).1 (fun _ => rfl),
   (identify_context_retry (fun _ => "x") pjR slidesOne 5).2 gwR "R"
     [("topic", JVal.jstr "T"), ("purpose", JVal.jstr "inform")]
     ⟨"T", "Unknown", "inform"⟩ rfl rfl rfl⟩

/-- C7 counterexample: two validation failures the claim mis-describes.
A response parsing to a JSON array propagates an uncaught
`AttributeError` — a hard failure, contradicting "no validation failure
is ever propagated".  And an object with the invalid purpose `"banana"`
triggers no retry at all: the code returns the all-`"Unknown"` context
after a single call even though a retry would have received the valid
purpose `"inform"`. -/
theorem identify_context_validation_counterexample :
    identify_context gwAlwaysHi pjArr [] 0 = (Except.error PyErr.attributeErr, 1) ∧
    identify_context gwAB pjAB [] 0 = (Except.ok unknownCtx, 1) :=
  ⟨rfl, rfl⟩

theorem slideLoop_ok_lengths (gw : Gateway) :
    ∀ (slides : List SlideRec) (k k' : Nat) (ss ts ls cs : List String),
      slideLoop gw slides k = (Except.ok (ss, ts, ls, cs), k') →
      ss.length = slides.length ∧ ts.length = slides.length ∧
      ls.length = slides.length ∧ cs.length = slides.length := by
  intro slides
  induction slides with
  | nil =>
    intro k k' ss ts ls cs h
    rw [show slideLoop gw [] k = (Except.ok ([], [], [], []), k) from rfl] at h
    simp only [Prod.mk.injEq, Except.ok.injEq] at h
    obtain ⟨⟨h1, h2, h3, h4⟩, -⟩ := h
    simp [← h1, ← h2, ← h3, ← h4]
  | cons d ds ih =>
    intro k k' ss ts ls cs h
    rw [show slideLoop gw (d :: ds) k =
        (match perSlideStep gw d k with
         | (Except.error e, k1) => (Except.error e, k1)
         | (Except.ok (s, t, l, c), k1) =>
           match slideLoop gw ds k1 with
           | (Except.error e, k2) => (Except.error e, k2)
           | (Except.ok (ss', ts', ls', cs'), k2) =>
             (Except.ok (s :: ss', t :: ts', l :: ls', c :: cs'), k2)) from rfl] at h
    rcases hp : perSlideStep gw d k with ⟨r1, k1⟩
    rw [hp] at h
    cases r1 with
    | error e => simp at h
    | ok quad =>
      obtain ⟨s, t, l, c⟩ := quad
      rcases hs : slideLoop gw ds k1 with ⟨r2, k2⟩
      simp only [hs] at h
      cases r2 with
      | error e => simp at h
      | ok quad2 =>
        obtain ⟨ss', ts', ls', cs'⟩ := quad2
        simp only [Prod.mk.injEq, Except.ok.injEq] at h
        obtain ⟨⟨h1, h2, h3, h4⟩, -⟩ := h
        obtain ⟨l1, l2, l3, l4⟩ := ih k1 k2 ss' ts' ls' cs' hs
        simp [← h1, ← h2, ← h3, ← h4, l1, l2, l3, l4]

/-- C2: for every slide list (of any length N, including 0 and 1),
`summarize_deck` either propagates a failure to the caller — in which
case no partial result exists, the `Except.error` carries nothing — or
succeeds fully, returning per-slide sequences (slide summaries, design
notes, layouts, charts) each of length exactly N, built in slide
order. -/
theorem summarize_deck_atomic (gw : Gateway) (pj : JsonDecode)
    (slides : List SlideRec) (k : Nat) :
    (∃ e k', summarize_deck gw pj slides k = (Except.error e, k')) ∨
    (∃ r k', summarize_deck gw pj slides k = (Except.ok r, k') ∧
      r.slide_sums.length = slides.length ∧
      r.design_notes.length = slides.length ∧
      r.layouts.length = slides.length ∧
      r.charts.length = slides.length) := by
  rcases h1 : identify_context gw pj slides k with ⟨r1, k1⟩
  cases r1 with
  | error e => exact Or.inl ⟨e, k1, by simp only [summarize_deck, h1]⟩
  | ok ctx =>
    rcases h2 : chat gw "Summarize this presentation in <100 words for a busy executive."
        (pyJoin "\n\n" (slides.map deckSegment)) 2 k1 with ⟨r2, k2⟩
    cases r2 with
    | error e =>
      exact Or.inl ⟨PyErr.gatewayErr, k2, by simp only [summarize_deck, h1, h2]⟩
    | ok o =>
      cases o with
      | none => exact Or.inl ⟨PyErr.typeErr, k2, by simp only [summarize_deck, h1, h2]⟩
      | some ds =>
        rcases h3 : slideLoop gw slides k2 with ⟨r3, k3⟩
        cases r3 with
        | error e => exact Or.inl ⟨e, k3, by simp only [summarize_deck, h1, h2, h3]⟩
        | ok quad =>
          obtain ⟨ss, ts, ls, cs⟩ := quad
          have hl := slideLoop_ok_lengths gw slides k2 k3 ss ts ls cs h3
          exact Or.inr ⟨⟨ds, ctx, ss, ts, ls, cs⟩, k3,
            by simp only [summarize_deck, h1, h2, h3], hl.1, hl.2.1, hl.2.2.1, hl.2.2.2⟩

/-- C9: within one session, once the first analysis run has stored its
result in the session slot, running the analysis again on the unchanged
slide records reuses the memoized result: the same `SummaryResult` is
returned, the slot is unchanged, and the Gateway call counter does not
advance (no additional remote calls are issued). -/
theorem analyzeStep_memoized (gw : Gateway) (pj : JsonDecode)
    (slides : List SlideRec) (k k1 : Nat) (r : SummaryResult)
    (st : Option SummaryResult)
    (h : analyzeStep gw pj slides none k = Except.ok (r, st, k1)) :
    analyzeStep gw pj slides st k1 = Except.ok (r, st, k1) := by
  unfold analyzeStep at h
  rcases hs : summarize_deck gw pj slides k with ⟨rs, ks⟩
  simp only [hs] at h
  cases rs with
  | error e => simp at h
  | ok rr =>
    simp only [Except.ok.injEq, Prod.mk.injEq] at h
    obtain ⟨h1, h2, h3⟩ := h
    subst h1
    subst h3
    rw [← h2]
    rfl

/-- C9 witness: after a successful first run (5 Gateway calls for one
slide), a second invocation returns the same memoized result with the
call counter still at 5. -/
theorem analyzeStep_memoized_witness :
    analyzeStep gwR pjR slidesOne (some resR) 5 = Except.ok (resR, some resR, 5) :=
  analyzeStep_memoized gwR pjR slidesOne 0 5 resR (some resR) rfl

theorem chatAttempts_pos_ne_none (gw : Gateway) (system user : String) :
    ∀ n k, (chatAttempts gw system user k (n + 1)).1 ≠ Except.ok none := by
  intro n
  induction n with
  | zero =>
    intro k
    rw [chatAttempts_succ]
    cases gw k system user with
    | some s => simp
    | none => simp
  | succ n ih =>
    intro k
    rw [chatAttempts_succ]
    cases gw k system user with
    | some s => simp
    | none =>
      rw [if_neg (by omega)]
      exact ih (k + 1)
